import Mathlib

/-!
Shallow embedding of the CreditSea loan-management backend
(Express route handlers, Mongoose models) for verifying the
natural-language specification.

Loans live in an associative store `List (LoanId × Loan)` standing for the
Mongo collection; `findById` / `updateById` model `Loan.findById` and
`Loan.findByIdAndUpdate`.  Route handlers are pure functions from the
store and request data to a response together with the updated store.
JS `Date` values are modelled as abstract `Nat` timestamps; JS numbers in
validated numeric fields are modelled as `ℚ`.
-/

namespace CreditSea

/-- `LoanStatus` enum of the Mongoose loan schema. -/
inductive LoanStatus where
  | pending
  | verified
  | approved
  | rejected
deriving DecidableEq, Repr

/-- String form of a status, as stored in the document database. -/
def LoanStatus.toStr : LoanStatus → String
  | .pending => "pending"
  | .verified => "verified"
  | .approved => "approved"
  | .rejected => "rejected"

abbrev UserId := Nat
abbrev LoanId := Nat
abbrev Timestamp := Nat

/-- `documents` sub-document of the loan schema. -/
structure Documents where
  idProof : Option String
  incomeProof : Option String
  addressProof : Option String
deriving DecidableEq, Repr

/-- The empty `{}` documents object used by the apply handler. -/
def Documents.empty : Documents := ⟨none, none, none⟩

/-- User record of the Mongoose `User` model. -/
structure UserRec where
  id : UserId
  name : String
  email : String
  password : String
  role : String
  isActive : Bool
deriving DecidableEq, Repr

/-- Loan record of the Mongoose `Loan` model. -/
structure Loan where
  applicantName : String
  email : String
  phoneNumber : String
  loanAmount : ℚ
  loanPurpose : String
  employmentStatus : String
  monthlyIncome : ℚ
  creditScore : Option ℚ
  status : LoanStatus
  verifiedBy : Option UserId
  approvedBy : Option UserId
  verificationDate : Option Timestamp
  approvalDate : Option Timestamp
  rejectionReason : Option String
  documents : Documents
deriving DecidableEq, Repr

/-- The loan collection, keyed by document id. -/
abbrev LoanStore := List (LoanId × Loan)

/-- `Loan.findById`. -/
def findById (store : LoanStore) (id : LoanId) : Option Loan :=
  (store.find? (fun e => e.1 == id)).map (fun e => e.2)

/-- The write performed by `Loan.findByIdAndUpdate`: replace the document
with the given id. -/
def updateById (store : LoanStore) (id : LoanId) (l : Loan) : LoanStore :=
  store.map (fun e => if e.1 == id then (e.1, l) else e)

/-- Identity summary produced by `.populate(ref, 'name email')`. -/
structure UserSummary where
  name : String
  email : String
deriving DecidableEq, Repr

/-- Resolve a stored user reference to its `name email` projection, as
`populate` does; an unresolvable reference populates to `null`. -/
def summarize (users : List UserRec) : Option UserId → Option UserSummary
  | none => none
  | some uid => (users.find? (fun u => u.id == uid)).map (fun u => ⟨u.name, u.email⟩)

/-- A loan as serialized in a response, with actor references of types `V`
(for `verifiedBy`) and `A` (for `approvedBy`): raw ids when not populated,
`UserSummary` when populated. -/
structure LoanView (V A : Type) where
  applicantName : String
  email : String
  phoneNumber : String
  loanAmount : ℚ
  loanPurpose : String
  employmentStatus : String
  monthlyIncome : ℚ
  creditScore : Option ℚ
  status : LoanStatus
  verifiedBy : V
  approvedBy : A
  verificationDate : Option Timestamp
  approvalDate : Option Timestamp
  rejectionReason : Option String
  documents : Documents
deriving DecidableEq, Repr

/-- Response loan of the verify endpoint: only `verifiedBy` is populated. -/
abbrev VerifyView := LoanView (Option UserSummary) (Option UserId)

/-- Response loan of the admin approve endpoint and of `GET /api/loans/:id`:
both actor references are populated. -/
abbrev ApproveView := LoanView (Option UserSummary) (Option UserSummary)

/-- `.populate('verifiedBy', 'name email')` on a loan document. -/
def populateVerifiedOnly (users : List UserRec) (l : Loan) : VerifyView :=
  { applicantName := l.applicantName
    email := l.email
    phoneNumber := l.phoneNumber
    loanAmount := l.loanAmount
    loanPurpose := l.loanPurpose
    employmentStatus := l.employmentStatus
    monthlyIncome := l.monthlyIncome
    creditScore := l.creditScore
    status := l.status
    verifiedBy := summarize users l.verifiedBy
    approvedBy := l.approvedBy
    verificationDate := l.verificationDate
    approvalDate := l.approvalDate
    rejectionReason := l.rejectionReason
    documents := l.documents }

/-- `.populate('verifiedBy', 'name email').populate('approvedBy', 'name email')`. -/
def populateBoth (users : List UserRec) (l : Loan) : ApproveView :=
  { applicantName := l.applicantName
    email := l.email
    phoneNumber := l.phoneNumber
    loanAmount := l.loanAmount
    loanPurpose := l.loanPurpose
    employmentStatus := l.employmentStatus
    monthlyIncome := l.monthlyIncome
    creditScore := l.creditScore
    status := l.status
    verifiedBy := summarize users l.verifiedBy
    approvedBy := summarize users l.approvedBy
    verificationDate := l.verificationDate
    approvalDate := l.approvalDate
    rejectionReason := l.rejectionReason
    documents := l.documents }

/-- The uniform response envelope `{success, message?, data?}` together with
the HTTP status code it is sent with. -/
structure Resp (α : Type) where
  status : Nat
  success : Bool
  message : String
  data : Option α
deriving DecidableEq, Repr

/-- JS falsiness of the `rejectionReason` body field
(`!rejectionReason`): absent or the empty string. -/
def isFalsyReason : Option String → Bool
  | none => true
  | some s => s == ""

/-- The update document built by the verify handler: `verifiedBy` and
`verificationDate` always; `status := verified` on verify,
`status := rejected` plus the reason on reject. -/
def verifyUpdate (actorId : UserId) (action : String) (reason : Option String)
    (now : Timestamp) (loan : Loan) : Loan :=
  if action = "verify" then
    { loan with verifiedBy := some actorId, verificationDate := some now,
                status := .verified }
  else
    { loan with verifiedBy := some actorId, verificationDate := some now,
                status := .rejected, rejectionReason := reason }

/-- The update document built by the admin approve handler. -/
def approveUpdate (actorId : UserId) (action : String) (reason : Option String)
    (now : Timestamp) (loan : Loan) : Loan :=
  if action = "approve" then
    { loan with approvedBy := some actorId, approvalDate := some now,
                status := .approved }
  else
    { loan with approvedBy := some actorId, approvalDate := some now,
                status := .rejected, rejectionReason := reason }

/-- Handler of `PATCH /api/loans/:id/verify` (`src` loan routes): body
checks, then `findById`, then the pending-status guard, then the single
`findByIdAndUpdate` whose result is populated on `verifiedBy` only. -/
def verifyHandler (users : List UserRec) (store : LoanStore) (actor : UserRec)
    (loanId : LoanId) (action : String) (reason : Option String)
    (now : Timestamp) : Resp VerifyView × LoanStore :=
  if ¬ (action = "verify" ∨ action = "reject") then
    (⟨400, false, "Action must be either \"verify\" or \"reject\"", none⟩, store)
  else if action = "reject" ∧ isFalsyReason reason then
    (⟨400, false, "Rejection reason is required", none⟩, store)
  else
    match findById store loanId with
    | none => (⟨404, false, "Loan not found", none⟩, store)
    | some loan =>
      if loan.status ≠ .pending then
        (⟨400, false, "Only pending loans can be verified or rejected", none⟩, store)
      else
        let updated := verifyUpdate actor.id action reason now loan
        (⟨200, true,
          (if action = "verify" then "Loan verified successfully"
           else "Loan rejected successfully"),
          some (populateVerifiedOnly users updated)⟩,
         updateById store loanId updated)

/-- Handler of `PATCH /api/admin/loans/:id/approve` (`src` admin routes):
body checks, then `findById`, then the verified-status guard, then the
single `findByIdAndUpdate` whose result is populated on both actors. -/
def approveHandler (users : List UserRec) (store : LoanStore) (actor : UserRec)
    (loanId : LoanId) (action : String) (reason : Option String)
    (now : Timestamp) : Resp ApproveView × LoanStore :=
  if ¬ (action = "approve" ∨ action = "reject") then
    (⟨400, false, "Action must be either \"approve\" or \"reject\"", none⟩, store)
  else if action = "reject" ∧ isFalsyReason reason then
    (⟨400, false, "Rejection reason is required", none⟩, store)
  else
    match findById store loanId with
    | none => (⟨404, false, "Loan not found", none⟩, store)
    | some loan =>
      if loan.status ≠ .verified then
        (⟨400, false, "Only verified loans can be approved or rejected", none⟩, store)
      else
        let updated := approveUpdate actor.id action reason now loan
        (⟨200, true,
          (if action = "approve" then "Loan approved successfully"
           else "Loan rejected successfully"),
          some (populateBoth users updated)⟩,
         updateById store loanId updated)

/-- Request body of `POST /api/loans/apply` after the express-validator
middleware has run its sanitizers. -/
structure ApplyBody where
  applicantName : String
  email : String
  phoneNumber : String
  loanAmount : ℚ
  loanPurpose : String
  employmentStatus : String
  monthlyIncome : ℚ
  creditScore : Option ℚ
  documents : Option Documents
deriving DecidableEq, Repr

/-- The `loanValidation` express-validator chain: every violated rule
contributes its message, in declaration order.  `isEmail` abstracts the
third-party email format check; the `trim` / `normalizeEmail` sanitizers
of the chain have already been applied to the body fields. -/
def validateApply (isEmail : String → Bool) (b : ApplyBody) : List String :=
  (if b.applicantName.length ≥ 2 then []
   else ["Applicant name must be at least 2 characters"]) ++
  (if isEmail b.email then [] else ["Valid email is required"]) ++
  (if b.phoneNumber.length ≥ 10 then []
   else ["Valid phone number is required"]) ++
  (if 1000 ≤ b.loanAmount ∧ b.loanAmount ≤ 10000000 then []
   else ["Loan amount must be between 1,000 and 10,000,000"]) ++
  (if b.loanPurpose.length ≥ 5 then []
   else ["Loan purpose must be at least 5 characters"]) ++
  (if b.employmentStatus ∈ ["employed", "self-employed", "unemployed", "retired"] then []
   else ["Invalid employment status"]) ++
  (if 0 ≤ b.monthlyIncome then []
   else ["Monthly income must be a positive number"])

/-- The new loan document built by the apply handler; `status` takes the
schema default `pending`, `documents` defaults to `{}`. -/
def newLoanOf (b : ApplyBody) : Loan :=
  { applicantName := b.applicantName
    email := b.email
    phoneNumber := b.phoneNumber
    loanAmount := b.loanAmount
    loanPurpose := b.loanPurpose
    employmentStatus := b.employmentStatus
    monthlyIncome := b.monthlyIncome
    creditScore := b.creditScore
    status := .pending
    verifiedBy := none
    approvedBy := none
    verificationDate := none
    approvalDate := none
    rejectionReason := none
    documents := b.documents.getD Documents.empty }

/-- The duplicate-application query
`Loan.findOne({email, status: {$in: ['pending','verified']}})`. -/
def hasActiveApplication (store : LoanStore) (email : String) : Bool :=
  (store.find? (fun e =>
    e.2.email == email &&
      (e.2.status == LoanStatus.pending || e.2.status == LoanStatus.verified))).isSome

/-- `{loanId, status}` payload of a successful application. -/
structure ApplyData where
  loanId : LoanId
  status : LoanStatus
deriving DecidableEq, Repr

/-- Handler of `POST /api/loans/apply`: field validation first, then the
duplicate check, then creation of the new pending loan under the fresh
document id `newId`. -/
def applyHandler (isEmail : String → Bool) (store : LoanStore) (b : ApplyBody)
    (newId : LoanId) : Resp ApplyData × LoanStore :=
  if validateApply isEmail b ≠ [] then
    (⟨400, false, "Validation failed", none⟩, store)
  else if hasActiveApplication store b.email then
    (⟨400, false, "You already have a pending loan application", none⟩, store)
  else
    (⟨201, true, "Loan application submitted successfully",
      some ⟨newId, .pending⟩⟩,
     store ++ [(newId, newLoanOf b)])

/-- The status part of the query built by `GET /api/loans`: the requested
filter when present and not falsy and not `all`, overridden to `pending`
for a verifier caller. -/
def buildStatusQuery (role : String) (statusFilter : Option String) : Option String :=
  let q : Option String :=
    match statusFilter with
    | some s => if s ≠ "" ∧ s ≠ "all" then some s else none
    | none => none
  if role = "verifier" then some "pending" else q

/-- Handler of `GET /api/loans`: filter by the built query and an abstract
search predicate, then paginate with skip/limit.  The `createdAt` sort and
the population of the returned page are not needed by the claims and are
not modelled. -/
def getLoansHandler (store : LoanStore) (role : String)
    (statusFilter : Option String) (matchSearch : Loan → Bool)
    (skip lim : Nat) : Nat × List (LoanId × Loan) :=
  let q := buildStatusQuery role statusFilter
  let matched := store.filter (fun e =>
    (match q with
     | none => true
     | some s => e.2.status.toStr == s) && matchSearch e.2)
  (200, (matched.drop skip).take lim)

/-- Handler of `GET /api/loans/:id`: 404 when absent, 403 for a verifier
when the loan is not pending, otherwise 200 with the populated loan. -/
def getLoanByIdHandler (users : List UserRec) (store : LoanStore)
    (role : String) (loanId : LoanId) : Resp ApproveView :=
  match findById store loanId with
  | none => ⟨404, false, "Loan not found", none⟩
  | some loan =>
    if role = "verifier" ∧ loan.status ≠ .pending then
      ⟨403, false, "Access denied", none⟩
    else
      ⟨200, true, "", some (populateBoth users loan)⟩

/-- `Loan.countDocuments({status: s})`. -/
def countStatus (store : LoanStore) (s : LoanStatus) : Nat :=
  (store.filter (fun e => e.2.status == s)).length

/-- The numeric value printed by `x.toFixed(1)` for a finite `x`:
rounding to the nearest tenth, halves away from zero upward. -/
def roundTenth (x : ℚ) : ℚ := (Int.floor (10 * x + 1 / 2) : ℚ) / 10

/-- `(count / total * 100).toFixed(1)` under JS number semantics: with
`total = 0` the division is `0/0 = NaN` (modelled as `none`) and
`toFixed` renders `"NaN"`; otherwise the finite rounded percentage. -/
def jsPercent (count total : Nat) : Option ℚ :=
  if total = 0 then none
  else some (roundTenth ((count : ℚ) / (total : ℚ) * 100))

/-- One entry of the `statusDistribution` array of
`GET /api/dashboard/stats`. -/
structure StatusSlice where
  status : String
  count : Nat
  percentage : Option ℚ
deriving DecidableEq, Repr

/-- The `statusDistribution` array built by the dashboard stats handler. -/
def statusDistribution (store : LoanStore) : List StatusSlice :=
  let total := store.length
  [ ⟨"pending", countStatus store .pending,
      jsPercent (countStatus store .pending) total⟩,
    ⟨"verified", countStatus store .verified,
      jsPercent (countStatus store .verified) total⟩,
    ⟨"approved", countStatus store .approved,
      jsPercent (countStatus store .approved) total⟩,
    ⟨"rejected", countStatus store .rejected,
      jsPercent (countStatus store .rejected) total⟩ ]

/-- A middleware failure: HTTP status plus message. -/
structure AuthFailure where
  status : Nat
  message : String
deriving DecidableEq, Repr

/-- Worker for `jsSplitSpace`, accumulating the current segment. -/
def splitAux (acc : List Char) : List Char → List String
  | [] => [String.mk acc.reverse]
  | c :: cs =>
    if c = ' ' then String.mk acc.reverse :: splitAux [] cs
    else splitAux (c :: acc) cs

/-- JS `s.split(' ')`: split at every single space, keeping empty
segments. -/
def jsSplitSpace (s : String) : List String := splitAux [] s.data

/-- `authHeader && authHeader.split(' ')[1]`: the token part of a
`Bearer TOKEN` header, `none` when the header or the part is missing or
the part is the empty string (JS falsy). -/
def extractToken : Option String → Option String
  | none => none
  | some h =>
    match (jsSplitSpace h).get? 1 with
    | none => none
    | some t => if t = "" then none else some t

/-- `authenticateToken` middleware.  `verify` abstracts
`jwt.verify`: `none` means the library threw (malformed or expired
token), which the catch block answers with 403; a decoded but unknown or
inactive user gets 401. -/
def authenticateToken (verify : String → Option UserId) (users : List UserRec)
    (authHeader : Option String) : Except AuthFailure UserRec :=
  match extractToken authHeader with
  | none => .error ⟨401, "Access token required"⟩
  | some tok =>
    match verify tok with
    | none => .error ⟨403, "Invalid or expired token"⟩
    | some uid =>
      match users.find? (fun u => u.id == uid) with
      | none => .error ⟨401, "Invalid or inactive user"⟩
      | some u =>
        if u.isActive then .ok u else .error ⟨401, "Invalid or inactive user"⟩

/-- `authorizeRole` middleware. -/
def authorizeRole (roles : List String) (user : Option UserRec) :
    Except AuthFailure UserRec :=
  match user with
  | none => .error ⟨401, "Authentication required"⟩
  | some u =>
    if roles.contains u.role then .ok u
    else .error ⟨403, "Insufficient permissions"⟩

/-- The stacked middleware chain of an authenticated endpoint:
`authenticateToken` then `authorizeRole roles`. -/
def authGate (verify : String → Option UserId) (users : List UserRec)
    (authHeader : Option String) (roles : List String) :
    Except AuthFailure UserRec :=
  match authenticateToken verify users authHeader with
  | .error e => .error e
  | .ok u => authorizeRole roles (some u)

/-- HTTP status of a gate outcome; 200 stands for request admitted. -/
def gateStatus : Except AuthFailure UserRec → Nat
  | .ok _ => 200
  | .error e => e.status

/-! ### Concrete sample data (mirroring the seed script), used to evaluate
the verified properties on closed inputs. -/

def demoAdmin : UserRec :=
  ⟨1, "System Administrator", "admin@creditsea.com", "hashed-admin-pw", "admin", true⟩

def demoVerifier : UserRec :=
  ⟨2, "Loan Verifier", "verifier@creditsea.com", "hashed-verifier-pw", "verifier", true⟩

def demoUsers : List UserRec := [demoAdmin, demoVerifier]

def demoPending : Loan :=
  ⟨"John Doe", "john.doe@example.com", "+1234567890", 50000, "Home renovation",
   "employed", 8000, some 720, .pending, none, none, none, none, none, Documents.empty⟩

def demoVerified : Loan :=
  ⟨"Jane Smith", "jane.smith@example.com", "+1234567891", 25000, "Education",
   "employed", 6000, some 680, .verified, some 2, none, some 10, none, none, Documents.empty⟩

def demoApproved : Loan :=
  ⟨"Bob Johnson", "bob.johnson@example.com", "+1234567892", 75000, "Business expansion",
   "self-employed", 12000, some 750, .approved, some 2, some 1, some 7, some 8, none,
   Documents.empty⟩

def demoRejected : Loan :=
  ⟨"Alice Brown", "alice.brown@example.com", "+1234567893", 15000, "Medical expenses",
   "employed", 4500, some 620, .rejected, some 2, none, some 5, none,
   some "Insufficient income for requested loan amount", Documents.empty⟩

def demoStore : LoanStore :=
  [(1, demoPending), (2, demoVerified), (3, demoApproved), (4, demoRejected)]

/-- A well-formed application body re-using the email of the terminal
`demoApproved` loan. -/
def demoBody : ApplyBody :=
  ⟨"Bob Johnson", "bob.johnson@example.com", "+1234567899", 5000,
   "Business expansion", "employed", 4500, none, none⟩

/-- An application body with an out-of-range amount, sharing its email with
the pending `demoPending` loan. -/
def badAmountBody : ApplyBody :=
  ⟨"John Doe", "john.doe@example.com", "+1234567890", 5, "Home renovation",
   "employed", 8000, none, none⟩

/-! ### Store lemmas -/

theorem findById_updateById_ne (store : LoanStore) (id j : LoanId) (l : Loan)
    (h : j ≠ id) : findById (updateById store id l) j = findById store j := by
  induction store with
  | nil => rfl
  | cons e es ih =>
    simp only [updateById, List.map_cons, findById] at ih ⊢
    by_cases he : e.1 = id
    · rw [if_pos (by simp [he])]
      rw [List.find?_cons_of_neg _ (by simp [he, Ne.symm h]),
          List.find?_cons_of_neg _ (by simp [he, Ne.symm h])]
      exact ih
    · rw [if_neg (by simp [he])]
      by_cases hej : e.1 = j
      · rw [List.find?_cons_of_pos _ (by simp [hej]),
            List.find?_cons_of_pos _ (by simp [hej])]
      · rw [List.find?_cons_of_neg _ (by simp [hej]),
            List.find?_cons_of_neg _ (by simp [hej])]
        exact ih

theorem findById_updateById_self (store : LoanStore) (id : LoanId) (l loan : Loan)
    (h : findById store id = some loan) :
    findById (updateById store id l) id = some l := by
  induction store with
  | nil => simp [findById] at h
  | cons e es ih =>
    simp only [updateById, List.map_cons, findById] at h ih ⊢
    by_cases he : e.1 = id
    · rw [if_pos (by simp [he])]
      rw [List.find?_cons_of_pos _ (by simp [he])]
      rfl
    · rw [if_neg (by simp [he])]
      rw [List.find?_cons_of_neg _ (by simp [he])]
      rw [List.find?_cons_of_neg _ (by simp [he])] at h
      exact ih h

/-! ### Population lemmas -/

theorem summarize_map_password (f : UserRec → String) (users : List UserRec)
    (x : Option UserId) :
    summarize (users.map (fun u => { u with password := f u })) x =
      summarize users x := by
  cases x with
  | none => rfl
  | some uid =>
    simp only [summarize]
    induction users with
    | nil => rfl
    | cons u us ih =>
      simp only [List.map_cons]
      by_cases h : u.id = uid
      · rw [List.find?_cons_of_pos _ (by simp [h]),
            List.find?_cons_of_pos _ (by simp [h])]
        rfl
      · rw [List.find?_cons_of_neg _ (by simp [h]),
            List.find?_cons_of_neg _ (by simp [h])]
        exact ih

theorem populateVerifiedOnly_map_password (f : UserRec → String)
    (users : List UserRec) (l : Loan) :
    populateVerifiedOnly (users.map (fun u => { u with password := f u })) l =
      populateVerifiedOnly users l := by
  simp only [populateVerifiedOnly, summarize_map_password]

theorem populateBoth_map_password (f : UserRec → String)
    (users : List UserRec) (l : Loan) :
    populateBoth (users.map (fun u => { u with password := f u })) l =
      populateBoth users l := by
  simp only [populateBoth, summarize_map_password]

/-! ### Duplicate-query lemma -/

theorem hasActiveApplication_true_iff (store : LoanStore) (email : String) :
    hasActiveApplication store email = true ↔
      ∃ e ∈ store, e.2.email = email ∧
        (e.2.status = .pending ∨ e.2.status = .verified) := by
  simp only [hasActiveApplication, List.find?_isSome, Bool.and_eq_true,
    Bool.or_eq_true, beq_iff_eq]

/-! ### Status string lemma -/

theorem toStr_eq_pending {s : LoanStatus} (h : s.toStr = "pending") :
    s = .pending := by
  cases s
  · rfl
  · exact absurd h (by decide)
  · exact absurd h (by decide)
  · exact absurd h (by decide)

/-! ### Branch lemmas for the two transition handlers.
A body is well formed at a stage when its action keyword is one of the two
legal verbs and, for a reject, carries a non-falsy reason. -/

/-- Well-formed verify-stage body. -/
def wfVerifyBody (action : String) (reason : Option String) : Prop :=
  action = "verify" ∨ (action = "reject" ∧ isFalsyReason reason = false)

/-- Well-formed approve-stage body. -/
def wfApproveBody (action : String) (reason : Option String) : Prop :=
  action = "approve" ∨ (action = "reject" ∧ isFalsyReason reason = false)

theorem verifyHandler_wrong_status (users : List UserRec) (store : LoanStore)
    (actor : UserRec) (id : LoanId) (action : String) (reason : Option String)
    (now : Timestamp) (loan : Loan) (hfind : findById store id = some loan)
    (hact : wfVerifyBody action reason) (hst : loan.status ≠ .pending) :
    verifyHandler users store actor id action reason now =
      (⟨400, false, "Only pending loans can be verified or rejected", none⟩, store) := by
  have c1 : action = "verify" ∨ action = "reject" :=
    hact.elim Or.inl (fun h => Or.inr h.1)
  have c2 : ¬ (action = "reject" ∧ isFalsyReason reason = true) := by
    rcases hact with h | ⟨_, h2⟩
    · rintro ⟨hr, _⟩; rw [h] at hr; exact absurd hr (by decide)
    · rintro ⟨_, hf⟩; rw [h2] at hf; exact absurd hf (by decide)
  simp [verifyHandler, c1, c2, hfind, hst]

theorem verifyHandler_success_eq (users : List UserRec) (store : LoanStore)
    (actor : UserRec) (id : LoanId) (action : String) (reason : Option String)
    (now : Timestamp) (loan : Loan) (hfind : findById store id = some loan)
    (hact : wfVerifyBody action reason) (hst : loan.status = .pending) :
    verifyHandler users store actor id action reason now =
      (⟨200, true,
        (if action = "verify" then "Loan verified successfully"
         else "Loan rejected successfully"),
        some (populateVerifiedOnly users (verifyUpdate actor.id action reason now loan))⟩,
       updateById store id (verifyUpdate actor.id action reason now loan)) := by
  have c1 : action = "verify" ∨ action = "reject" :=
    hact.elim Or.inl (fun h => Or.inr h.1)
  have c2 : ¬ (action = "reject" ∧ isFalsyReason reason = true) := by
    rcases hact with h | ⟨_, h2⟩
    · rintro ⟨hr, _⟩; rw [h] at hr; exact absurd hr (by decide)
    · rintro ⟨_, hf⟩; rw [h2] at hf; exact absurd hf (by decide)
  simp [verifyHandler, c1, c2, hfind, hst]

theorem verifyHandler_store_unchanged_of_not_pending (users : List UserRec)
    (store : LoanStore) (actor : UserRec) (id : LoanId) (action : String)
    (reason : Option String) (now : Timestamp) (loan : Loan)
    (hfind : findById store id = some loan) (hst : loan.status ≠ .pending) :
    (verifyHandler users store actor id action reason now).2 = store := by
  by_cases c1 : action = "verify" ∨ action = "reject"
  · by_cases c2 : action = "reject" ∧ isFalsyReason reason = true
    · simp [verifyHandler, c1, c2]
    · simp [verifyHandler, c1, c2, hfind, hst]
  · simp [verifyHandler, c1]

theorem verifyHandler_success_pending (users : List UserRec) (store : LoanStore)
    (actor : UserRec) (id : LoanId) (action : String) (reason : Option String)
    (now : Timestamp) (loan : Loan) (hfind : findById store id = some loan)
    (hsucc : (verifyHandler users store actor id action reason now).1.success = true) :
    loan.status = .pending := by
  by_contra hst
  by_cases c1 : action = "verify" ∨ action = "reject"
  · by_cases c2 : action = "reject" ∧ isFalsyReason reason = true
    · simp [verifyHandler, c1, c2] at hsucc
    · simp [verifyHandler, c1, c2, hfind, hst] at hsucc
  · simp [verifyHandler, c1] at hsucc

theorem verifyHandler_fail_store (users : List UserRec) (store : LoanStore)
    (actor : UserRec) (id : LoanId) (action : String) (reason : Option String)
    (now : Timestamp)
    (hfail : (verifyHandler users store actor id action reason now).1.success = false) :
    (verifyHandler users store actor id action reason now).2 = store := by
  by_cases c1 : action = "verify" ∨ action = "reject"
  · by_cases c2 : action = "reject" ∧ isFalsyReason reason = true
    · simp [verifyHandler, c1, c2]
    · cases hf : findById store id with
      | none => simp [verifyHandler, c1, c2, hf]
      | some loan =>
        by_cases hst : loan.status = .pending
        · exfalso; simp [verifyHandler, c1, c2, hf, hst] at hfail
        · simp [verifyHandler, c1, c2, hf, hst]
  · simp [verifyHandler, c1]

theorem approveHandler_wrong_status (users : List UserRec) (store : LoanStore)
    (actor : UserRec) (id : LoanId) (action : String) (reason : Option String)
    (now : Timestamp) (loan : Loan) (hfind : findById store id = some loan)
    (hact : wfApproveBody action reason) (hst : loan.status ≠ .verified) :
    approveHandler users store actor id action reason now =
      (⟨400, false, "Only verified loans can be approved or rejected", none⟩, store) := by
  have c1 : action = "approve" ∨ action = "reject" :=
    hact.elim Or.inl (fun h => Or.inr h.1)
  have c2 : ¬ (action = "reject" ∧ isFalsyReason reason = true) := by
    rcases hact with h | ⟨_, h2⟩
    · rintro ⟨hr, _⟩; rw [h] at hr; exact absurd hr (by decide)
    · rintro ⟨_, hf⟩; rw [h2] at hf; exact absurd hf (by decide)
  simp [approveHandler, c1, c2, hfind, hst]

theorem approveHandler_success_eq (users : List UserRec) (store : LoanStore)
    (actor : UserRec) (id : LoanId) (action : String) (reason : Option String)
    (now : Timestamp) (loan : Loan) (hfind : findById store id = some loan)
    (hact : wfApproveBody action reason) (hst : loan.status = .verified) :
    approveHandler users store actor id action reason now =
      (⟨200, true,
        (if action = "approve" then "Loan approved successfully"
         else "Loan rejected successfully"),
        some (populateBoth users (approveUpdate actor.id action reason now loan))⟩,
       updateById store id (approveUpdate actor.id action reason now loan)) := by
  have c1 : action = "approve" ∨ action = "reject" :=
    hact.elim Or.inl (fun h => Or.inr h.1)
  have c2 : ¬ (action = "reject" ∧ isFalsyReason reason = true) := by
    rcases hact with h | ⟨_, h2⟩
    · rintro ⟨hr, _⟩; rw [h] at hr; exact absurd hr (by decide)
    · rintro ⟨_, hf⟩; rw [h2] at hf; exact absurd hf (by decide)
  simp [approveHandler, c1, c2, hfind, hst]

theorem approveHandler_store_unchanged_of_not_verified (users : List UserRec)
    (store : LoanStore) (actor : UserRec) (id : LoanId) (action : String)
    (reason : Option String) (now : Timestamp) (loan : Loan)
    (hfind : findById store id = some loan) (hst : loan.status ≠ .verified) :
    (approveHandler users store actor id action reason now).2 = store := by
  by_cases c1 : action = "approve" ∨ action = "reject"
  · by_cases c2 : action = "reject" ∧ isFalsyReason reason = true
    · simp [approveHandler, c1, c2]
    · simp [approveHandler, c1, c2, hfind, hst]
  · simp [approveHandler, c1]

theorem approveHandler_success_verified (users : List UserRec) (store : LoanStore)
    (actor : UserRec) (id : LoanId) (action : String) (reason : Option String)
    (now : Timestamp) (loan : Loan) (hfind : findById store id = some loan)
    (hsucc : (approveHandler users store actor id action reason now).1.success = true) :
    loan.status = .verified := by
  by_contra hst
  by_cases c1 : action = "approve" ∨ action = "reject"
  · by_cases c2 : action = "reject" ∧ isFalsyReason reason = true
    · simp [approveHandler, c1, c2] at hsucc
    · simp [approveHandler, c1, c2, hfind, hst] at hsucc
  · simp [approveHandler, c1] at hsucc

theorem approveHandler_fail_store (users : List UserRec) (store : LoanStore)
    (actor : UserRec) (id : LoanId) (action : String) (reason : Option String)
    (now : Timestamp)
    (hfail : (approveHandler users store actor id action reason now).1.success = false) :
    (approveHandler users store actor id action reason now).2 = store := by
  by_cases c1 : action = "approve" ∨ action = "reject"
  · by_cases c2 : action = "reject" ∧ isFalsyReason reason = true
    · simp [approveHandler, c1, c2]
    · cases hf : findById store id with
      | none => simp [approveHandler, c1, c2, hf]
      | some loan =>
        by_cases hst : loan.status = .verified
        · exfalso; simp [approveHandler, c1, c2, hf, hst] at hfail
        · simp [approveHandler, c1, c2, hf, hst]
  · simp [approveHandler, c1]

theorem verifyUpdate_verifiedBy (a : UserId) (action : String)
    (reason : Option String) (now : Timestamp) (l : Loan) :
    (verifyUpdate a action reason now l).verifiedBy = some a := by
  unfold verifyUpdate; split <;> rfl

theorem approveUpdate_approvedBy (a : UserId) (action : String)
    (reason : Option String) (now : Timestamp) (l : Loan) :
    (approveUpdate a action reason now l).approvedBy = some a := by
  unfold approveUpdate; split <;> rfl

/-! ### Claim theorems -/

/-- C1: every loan status is one of pending, verified, approved, rejected;
the verify endpoint succeeds only on a pending loan and, for a well-formed
body, answers the 400 InvalidTransition response on any other status; the
admin approve endpoint succeeds only on a verified loan and answers its
400 InvalidTransition response on any other status; consequently a loan
whose status is approved or rejected is never modified by either
endpoint. -/
theorem C1_status_state_machine (users : List UserRec) (store : LoanStore)
    (actor : UserRec) (id : LoanId) (action : String) (reason : Option String)
    (now : Timestamp) (loan : Loan) (hfind : findById store id = some loan) :
    (loan.status = .pending ∨ loan.status = .verified ∨
      loan.status = .approved ∨ loan.status = .rejected) ∧
    ((verifyHandler users store actor id action reason now).1.success = true →
      loan.status = .pending) ∧
    (wfVerifyBody action reason → loan.status ≠ .pending →
      (verifyHandler users store actor id action reason now).1 =
        ⟨400, false, "Only pending loans can be verified or rejected", none⟩) ∧
    ((approveHandler users store actor id action reason now).1.success = true →
      loan.status = .verified) ∧
    (wfApproveBody action reason → loan.status ≠ .verified →
      (approveHandler users store actor id action reason now).1 =
        ⟨400, false, "Only verified loans can be approved or rejected", none⟩) ∧
    ((loan.status = .approved ∨ loan.status = .rejected) →
      (verifyHandler users store actor id action reason now).2 = store ∧
      (approveHandler users store actor id action reason now).2 = store) := by
  refine ⟨?_, ?_, ?_, ?_, ?_, ?_⟩
  · cases h : loan.status <;> simp
  · exact verifyHandler_success_pending users store actor id action reason now loan hfind
  · intro hact hst
    rw [verifyHandler_wrong_status users store actor id action reason now loan hfind hact hst]
  · exact approveHandler_success_verified users store actor id action reason now loan hfind
  · intro hact hst
    rw [approveHandler_wrong_status users store actor id action reason now loan hfind hact hst]
  · intro hterm
    refine ⟨?_, ?_⟩
    · exact verifyHandler_store_unchanged_of_not_pending users store actor id action
        reason now loan hfind (by rcases hterm with h | h <;> simp [h])
    · exact approveHandler_store_unchanged_of_not_verified users store actor id action
        reason now loan hfind (by rcases hterm with h | h <;> simp [h])

/-- Witness for C1 at the terminal `demoApproved` loan: neither endpoint
modifies the store. -/
theorem C1_status_state_machine_witness :
    findById demoStore 3 = some demoApproved ∧
    (demoApproved.status = .approved ∨ demoApproved.status = .rejected) ∧
    (verifyHandler demoUsers demoStore demoAdmin 3 "verify" none 5).2 = demoStore ∧
    (approveHandler demoUsers demoStore demoAdmin 3 "verify" none 5).2 = demoStore := by
  have h := (C1_status_state_machine demoUsers demoStore demoAdmin 3 "verify" none 5
    demoApproved rfl).2.2.2.2.2 (Or.inl rfl)
  exact ⟨rfl, Or.inl rfl, h.1, h.2⟩

/-- C3: at either transition endpoint, for any caller record (hence any
caller role) and any loan id, a reject action whose reason is absent (or
JS-falsy) gets the 400 validation response and leaves the store
untouched. -/
theorem C3_reject_without_reason (users : List UserRec) (store : LoanStore)
    (actor : UserRec) (id : LoanId) (reason : Option String) (now : Timestamp)
    (h : isFalsyReason reason = true) :
    (verifyHandler users store actor id "reject" reason now).1 =
      ⟨400, false, "Rejection reason is required", none⟩ ∧
    (verifyHandler users store actor id "reject" reason now).2 = store ∧
    (approveHandler users store actor id "reject" reason now).1 =
      ⟨400, false, "Rejection reason is required", none⟩ ∧
    (approveHandler users store actor id "reject" reason now).2 = store := by
  have hv : ("reject" : String) = "verify" ∨ ("reject" : String) = "reject" := Or.inr rfl
  have ha : ("reject" : String) = "approve" ∨ ("reject" : String) = "reject" := Or.inr rfl
  refine ⟨?_, ?_, ?_, ?_⟩ <;>
    simp [verifyHandler, approveHandler, hv, ha, h]

/-- Witness for C3 with the reason field absent. -/
theorem C3_reject_without_reason_witness :
    isFalsyReason none = true ∧
    (verifyHandler demoUsers demoStore demoVerifier 1 "reject" none 5).1 =
      ⟨400, false, "Rejection reason is required", none⟩ ∧
    (approveHandler demoUsers demoStore demoAdmin 2 "reject" none 5).2 = demoStore := by
  have h1 := C3_reject_without_reason demoUsers demoStore demoVerifier 1 none 5 rfl
  have h2 := C3_reject_without_reason demoUsers demoStore demoAdmin 2 none 5 rfl
  exact ⟨rfl, h1.1, h2.2.2.2⟩

/-- C9: at both transition endpoints the body checks precede the store
lookup: an illegal action keyword, or a reject without reason, yields the
400 validation response with the store untouched, for every store (in
particular when the id is absent or the loan is in the wrong state); the
404 response and the InvalidTransition response can only arise from a
well-formed body. -/
theorem C9_validation_precedes_lookup (users : List UserRec) (store : LoanStore)
    (actor : UserRec) (id : LoanId) (action : String) (reason : Option String)
    (now : Timestamp) :
    (¬ (action = "verify" ∨ action = "reject") →
      verifyHandler users store actor id action reason now =
        (⟨400, false, "Action must be either \"verify\" or \"reject\"", none⟩, store)) ∧
    (action = "reject" → isFalsyReason reason = true →
      verifyHandler users store actor id action reason now =
        (⟨400, false, "Rejection reason is required", none⟩, store)) ∧
    (¬ (action = "approve" ∨ action = "reject") →
      approveHandler users store actor id action reason now =
        (⟨400, false, "Action must be either \"approve\" or \"reject\"", none⟩, store)) ∧
    (action = "reject" → isFalsyReason reason = true →
      approveHandler users store actor id action reason now =
        (⟨400, false, "Rejection reason is required", none⟩, store)) ∧
    ((verifyHandler users store actor id action reason now).1.status = 404 ∨
      (verifyHandler users store actor id action reason now).1.message =
        "Only pending loans can be verified or rejected" →
      wfVerifyBody action reason) ∧
    ((approveHandler users store actor id action reason now).1.status = 404 ∨
      (approveHandler users store actor id action reason now).1.message =
        "Only verified loans can be approved or rejected" →
      wfApproveBody action reason) := by
  refine ⟨?_, ?_, ?_, ?_, ?_, ?_⟩
  · intro hbad; simp [verifyHandler, hbad]
  · intro hrej hfalsy; simp [verifyHandler, hrej, hfalsy]
  · intro hbad; simp [approveHandler, hbad]
  · intro hrej hfalsy; simp [approveHandler, hrej, hfalsy]
  · intro hor
    by_cases c1 : action = "verify" ∨ action = "reject"
    · by_cases c2 : action = "reject" ∧ isFalsyReason reason = true
      · exfalso; simp [verifyHandler, c1, c2] at hor
      · rcases c1 with h | h
        · exact Or.inl h
        · refine Or.inr ⟨h, ?_⟩
          cases hb : isFalsyReason reason
          · rfl
          · exact absurd ⟨h, hb⟩ c2
    · exfalso; simp [verifyHandler, c1] at hor
  · intro hor
    by_cases c1 : action = "approve" ∨ action = "reject"
    · by_cases c2 : action = "reject" ∧ isFalsyReason reason = true
      · exfalso; simp [approveHandler, c1, c2] at hor
      · rcases c1 with h | h
        · exact Or.inl h
        · refine Or.inr ⟨h, ?_⟩
          cases hb : isFalsyReason reason
          · rfl
          · exact absurd ⟨h, hb⟩ c2
    · exfalso; simp [approveHandler, c1] at hor

/-- Witness for C9 at an illegal action keyword and an absent loan id. -/
theorem C9_validation_precedes_lookup_witness :
    ¬ (("foo" : String) = "verify" ∨ ("foo" : String) = "reject") ∧
    verifyHandler demoUsers demoStore demoVerifier 99 "foo" none 5 =
      (⟨400, false, "Action must be either \"verify\" or \"reject\"", none⟩, demoStore) := by
  have h := (C9_validation_precedes_lookup demoUsers demoStore demoVerifier 99
    "foo" none 5).1 (by decide)
  exact ⟨by decide, h⟩

/-- C10: every failing request to either transition endpoint leaves the
loan store exactly as it was: the single write runs only after all guards
have passed. -/
theorem C10_no_write_on_failure (users : List UserRec) (store : LoanStore)
    (actor : UserRec) (id : LoanId) (action : String) (reason : Option String)
    (now : Timestamp) :
    ((verifyHandler users store actor id action reason now).1.success = false →
      (verifyHandler users store actor id action reason now).2 = store) ∧
    ((approveHandler users store actor id action reason now).1.success = false →
      (approveHandler users store actor id action reason now).2 = store) :=
  ⟨verifyHandler_fail_store users store actor id action reason now,
   approveHandler_fail_store users store actor id action reason now⟩

/-- Witness for C10 at a failing (bad-action) request. -/
theorem C10_no_write_on_failure_witness :
    (verifyHandler demoUsers demoStore demoVerifier 1 "foo" none 5).2 = demoStore ∧
    (approveHandler demoUsers demoStore demoAdmin 2 "foo" none 5).2 = demoStore := by
  have h1 := C10_no_write_on_failure demoUsers demoStore demoVerifier 1 "foo" none 5
  have h2 := C10_no_write_on_failure demoUsers demoStore demoAdmin 2 "foo" none 5
  exact ⟨h1.1 rfl, h2.2 rfl⟩

/-- Counterexample to C2 as stated: `badAmountBody` shares its email with
the pending `demoPending` loan, so a duplicate application exists, yet the
submission is answered with the field-validation failure, not with the
DuplicateApplication response, because field validation runs before the
duplicate query. -/
theorem C2_counterexample_validation_first :
    hasActiveApplication demoStore badAmountBody.email = true ∧
    (applyHandler (fun _ => true) demoStore badAmountBody 9).1 =
      ⟨400, false, "Validation failed", none⟩ ∧
    (applyHandler (fun _ => true) demoStore badAmountBody 9).1.message ≠
      "You already have a pending loan application" := by
  refine ⟨rfl, rfl, ?_⟩
  intro h
  rw [show (applyHandler (fun _ => true) demoStore badAmountBody 9).1.message =
    "Validation failed" from rfl] at h
  exact absurd h (by decide)

/-- C2 amended: for every submission that passes field validation, a loan
with the same email in status pending or verified makes the submission
fail with the DuplicateApplication response and leaves the store
unchanged; when every loan with that email is terminal the submission
succeeds with 201 and appends a new loan whose status is pending. -/
theorem C2_amended_submission (isEmail : String → Bool) (store : LoanStore)
    (b : ApplyBody) (newId : LoanId) (hval : validateApply isEmail b = []) :
    ((∃ e ∈ store, e.2.email = b.email ∧
        (e.2.status = .pending ∨ e.2.status = .verified)) →
      applyHandler isEmail store b newId =
        (⟨400, false, "You already have a pending loan application", none⟩, store)) ∧
    ((∀ e ∈ store, e.2.email = b.email →
        e.2.status = .approved ∨ e.2.status = .rejected) →
      applyHandler isEmail store b newId =
        (⟨201, true, "Loan application submitted successfully",
          some ⟨newId, .pending⟩⟩, store ++ [(newId, newLoanOf b)]) ∧
      (newLoanOf b).status = .pending) := by
  constructor
  · intro hex
    have hdup : hasActiveApplication store b.email = true :=
      (hasActiveApplication_true_iff store b.email).mpr hex
    simp [applyHandler, hval, hdup]
  · intro hterm
    have hdup : hasActiveApplication store b.email = false := by
      cases hd : hasActiveApplication store b.email
      · rfl
      · exfalso
        obtain ⟨e, hmem, hemail, hstat⟩ :=
          (hasActiveApplication_true_iff store b.email).mp hd
        rcases hterm e hmem hemail with h | h <;> rcases hstat with h2 | h2 <;>
          rw [h2] at h <;> exact LoanStatus.noConfusion h
    exact ⟨by simp [applyHandler, hval, hdup], rfl⟩

/-- Witness for C2 amended: a valid third submission after the terminal
`demoApproved` loan with the same email succeeds and creates a pending
loan. -/
theorem C2_amended_submission_witness :
    validateApply (fun _ => true) demoBody = [] ∧
    (∀ e ∈ ([(3, demoApproved)] : LoanStore), e.2.email = demoBody.email →
      e.2.status = .approved ∨ e.2.status = .rejected) ∧
    applyHandler (fun _ => true) [(3, demoApproved)] demoBody 9 =
      (⟨201, true, "Loan application submitted successfully", some ⟨9, .pending⟩⟩,
       [(3, demoApproved)] ++ [(9, newLoanOf demoBody)]) := by
  have h := (C2_amended_submission (fun _ => true) [(3, demoApproved)] demoBody 9
    rfl).2 (by decide)
  exact ⟨rfl, by decide, h.1⟩

/-- Counterexample to C4 as stated: a present but undecodable bearer token
(`jwt.verify` throws on it) is answered with 403 by the catch block of
`authenticateToken`, not with the claimed 401, and this 403 arises with no
resolved identity whose role could be insufficient. -/
theorem C4_counterexample_malformed_token_403 :
    gateStatus (authGate (fun _ => none) demoUsers
      (some "Bearer bad-token") ["verifier", "admin"]) = 403 ∧
    (403 : Nat) ≠ 401 := ⟨rfl, by decide⟩

/-- C4 amended: 401 exactly when the token is missing or decodes to a
non-existent or inactive user; 403 when the token is present but the
verifier rejects it (malformed or expired), or when a resolved identity's
role is outside the endpoint's permitted role set; otherwise the request
is admitted with the resolved identity. -/
theorem C4_amended_auth_statuses (verify : String → Option UserId)
    (users : List UserRec) (authHeader : Option String) (roles : List String) :
    (extractToken authHeader = none →
      authGate verify users authHeader roles =
        .error ⟨401, "Access token required"⟩) ∧
    (∀ tok, extractToken authHeader = some tok → verify tok = none →
      authGate verify users authHeader roles =
        .error ⟨403, "Invalid or expired token"⟩) ∧
    (∀ tok uid, extractToken authHeader = some tok → verify tok = some uid →
      (users.find? (fun u => u.id == uid) = none ∨
        ∃ u, users.find? (fun u => u.id == uid) = some u ∧ u.isActive = false) →
      authGate verify users authHeader roles =
        .error ⟨401, "Invalid or inactive user"⟩) ∧
    (∀ u, authenticateToken verify users authHeader = .ok u →
      roles.contains u.role = false →
      authGate verify users authHeader roles =
        .error ⟨403, "Insufficient permissions"⟩) ∧
    (∀ u, authenticateToken verify users authHeader = .ok u →
      roles.contains u.role = true →
      authGate verify users authHeader roles = .ok u) := by
  refine ⟨?_, ?_, ?_, ?_, ?_⟩
  · intro h; simp [authGate, authenticateToken, h]
  · intro tok h1 h2; simp [authGate, authenticateToken, h1, h2]
  · intro tok uid h1 h2 h3
    rcases h3 with h3 | ⟨u, h3, h4⟩
    · simp [authGate, authenticateToken, h1, h2, h3]
    · simp [authGate, authenticateToken, h1, h2, h3, h4]
  · intro u h1 h2
    simp only [authGate, h1, authorizeRole]
    rw [if_neg (fun hc => Bool.noConfusion (h2.symm.trans hc))]
  · intro u h1 h2
    simp only [authGate, h1, authorizeRole]
    rw [if_pos h2]

/-- Witness for C4 amended at a token every verification attempt rejects. -/
theorem C4_amended_auth_statuses_witness :
    extractToken (some "Bearer tok") = some "tok" ∧
    authGate (fun _ => none) demoUsers (some "Bearer tok") ["admin"] =
      .error ⟨403, "Invalid or expired token"⟩ := by
  have h := (C4_amended_auth_statuses (fun _ => none) demoUsers
    (some "Bearer tok") ["admin"]).2.1 "tok" rfl rfl
  exact ⟨rfl, h⟩

/-- C5: a verifier's loan list contains only pending loans whatever status
filter was requested; the admin list request answers 200; a verifier
requesting a single non-pending loan is denied with 403 while an admin
gets 200 with the populated loan for any status. -/
theorem C5_verifier_scoping (users : List UserRec) (store : LoanStore)
    (statusFilter : Option String) (matchSearch : Loan → Bool) (skip lim : Nat)
    (id : LoanId) (loan : Loan) (hfind : findById store id = some loan) :
    (∀ e ∈ (getLoansHandler store "verifier" statusFilter matchSearch skip lim).2,
      e.2.status = .pending) ∧
    (getLoansHandler store "admin" statusFilter matchSearch skip lim).1 = 200 ∧
    (loan.status ≠ .pending →
      (getLoanByIdHandler users store "verifier" id).status = 403) ∧
    (getLoanByIdHandler users store "admin" id).status = 200 ∧
    (getLoanByIdHandler users store "admin" id).success = true ∧
    (getLoanByIdHandler users store "admin" id).data =
      some (populateBoth users loan) := by
  refine ⟨?_, rfl, ?_, ?_, ?_, ?_⟩
  · intro e he
    have hq : buildStatusQuery "verifier" statusFilter = some "pending" := by
      simp [buildStatusQuery]
    simp only [getLoansHandler] at he
    have he2 := List.take_subset _ _ he
    have he3 := List.drop_subset _ _ he2
    have hp := (List.mem_filter.mp he3).2
    rw [hq, Bool.and_eq_true] at hp
    exact toStr_eq_pending (by simpa using hp.1)
  · intro hst; simp [getLoanByIdHandler, hfind, hst]
  · simp [getLoanByIdHandler, hfind]
  · simp [getLoanByIdHandler, hfind]
  · simp [getLoanByIdHandler, hfind]

/-- Witness for C5 at the approved `demoApproved` loan. -/
theorem C5_verifier_scoping_witness :
    findById demoStore 3 = some demoApproved ∧
    demoApproved.status ≠ .pending ∧
    (getLoanByIdHandler demoUsers demoStore "verifier" 3).status = 403 ∧
    (getLoanByIdHandler demoUsers demoStore "admin" 3).status = 200 ∧
    (∀ e ∈ (getLoansHandler demoStore "verifier" (some "approved")
      (fun _ => true) 0 10).2, e.2.status = .pending) := by
  have h := C5_verifier_scoping demoUsers demoStore (some "approved")
    (fun _ => true) 0 10 3 demoApproved rfl
  exact ⟨rfl, by decide, h.2.2.1 (by decide), h.2.2.2.1, h.1⟩

/-- C6, evaluated at the failing input of the claim: with zero total loans
the dashboard status distribution carries the JS value NaN (modelled as
`none`, from the 0/0 division) as every percentage — not the required 0 —
although the request itself still succeeds. -/
theorem C6_zero_total_yields_NaN :
    statusDistribution ([] : LoanStore) =
      [⟨"pending", 0, none⟩, ⟨"verified", 0, none⟩,
       ⟨"approved", 0, none⟩, ⟨"rejected", 0, none⟩] ∧
    (∀ slice ∈ statusDistribution ([] : LoanStore), slice.percentage ≠ some 0) :=
  ⟨rfl, by decide⟩

/-- C7: whenever a transition response carries a loan, the actor reference
recorded by that transition is expanded to the name/email summary of the
matching user record; moreover both transition handlers are invariant
under arbitrary rewriting of every stored password, so no response ever
depends on — or can contain — a password field. -/
theorem C7_actor_summaries_no_password (users : List UserRec) (store : LoanStore)
    (actor : UserRec) (id : LoanId) (action : String) (reason : Option String)
    (now : Timestamp) :
    (∀ v, (verifyHandler users store actor id action reason now).1.data = some v →
      v.verifiedBy = (users.find? (fun u => u.id == actor.id)).map
        (fun u => UserSummary.mk u.name u.email)) ∧
    (∀ v, (approveHandler users store actor id action reason now).1.data = some v →
      v.approvedBy = (users.find? (fun u => u.id == actor.id)).map
        (fun u => UserSummary.mk u.name u.email)) ∧
    (∀ f : UserRec → String,
      verifyHandler (users.map (fun u => { u with password := f u })) store actor
        id action reason now =
        verifyHandler users store actor id action reason now ∧
      approveHandler (users.map (fun u => { u with password := f u })) store actor
        id action reason now =
        approveHandler users store actor id action reason now) := by
  refine ⟨?_, ?_, ?_⟩
  · intro v hv
    by_cases c1 : action = "verify" ∨ action = "reject"
    · by_cases c2 : action = "reject" ∧ isFalsyReason reason = true
      · simp [verifyHandler, c1, c2] at hv
      · cases hf : findById store id with
        | none => simp [verifyHandler, c1, c2, hf] at hv
        | some loan =>
          by_cases hst : loan.status = .pending
          · have hv2 : populateVerifiedOnly users
                (verifyUpdate actor.id action reason now loan) = v := by
              simpa [verifyHandler, c1, c2, hf, hst] using hv
            rw [← hv2]
            simp [populateVerifiedOnly, verifyUpdate_verifiedBy, summarize]
          · simp [verifyHandler, c1, c2, hf, hst] at hv
    · simp [verifyHandler, c1] at hv
  · intro v hv
    by_cases c1 : action = "approve" ∨ action = "reject"
    · by_cases c2 : action = "reject" ∧ isFalsyReason reason = true
      · simp [approveHandler, c1, c2] at hv
      · cases hf : findById store id with
        | none => simp [approveHandler, c1, c2, hf] at hv
        | some loan =>
          by_cases hst : loan.status = .verified
          · have hv2 : populateBoth users
                (approveUpdate actor.id action reason now loan) = v := by
              simpa [approveHandler, c1, c2, hf, hst] using hv
            rw [← hv2]
            simp [populateBoth, approveUpdate_approvedBy, summarize]
          · simp [approveHandler, c1, c2, hf, hst] at hv
    · simp [approveHandler, c1] at hv
  · intro f
    constructor
    · by_cases c1 : action = "verify" ∨ action = "reject"
      · by_cases c2 : action = "reject" ∧ isFalsyReason reason = true
        · simp [verifyHandler, c1, c2]
        · cases hf : findById store id with
          | none => simp [verifyHandler, c1, c2, hf]
          | some loan =>
            by_cases hst : loan.status = .pending
            · simp [verifyHandler, c1, c2, hf, hst, populateVerifiedOnly_map_password]
            · simp [verifyHandler, c1, c2, hf, hst]
      · simp [verifyHandler, c1]
    · by_cases c1 : action = "approve" ∨ action = "reject"
      · by_cases c2 : action = "reject" ∧ isFalsyReason reason = true
        · simp [approveHandler, c1, c2]
        · cases hf : findById store id with
          | none => simp [approveHandler, c1, c2, hf]
          | some loan =>
            by_cases hst : loan.status = .verified
            · simp [approveHandler, c1, c2, hf, hst, populateBoth_map_password]
            · simp [approveHandler, c1, c2, hf, hst]
      · simp [approveHandler, c1]

/-- Witness for C7 at a successful verification by `demoVerifier`. -/
theorem C7_actor_summaries_no_password_witness :
    (verifyHandler demoUsers demoStore demoVerifier 1 "verify" none 5).1.data =
      some (populateVerifiedOnly demoUsers
        (verifyUpdate demoVerifier.id "verify" none 5 demoPending)) ∧
    (populateVerifiedOnly demoUsers
      (verifyUpdate demoVerifier.id "verify" none 5 demoPending)).verifiedBy =
      (demoUsers.find? (fun u => u.id == demoVerifier.id)).map
        (fun u => UserSummary.mk u.name u.email) := by
  have h := (C7_actor_summaries_no_password demoUsers demoStore demoVerifier 1
    "verify" none 5).1 (populateVerifiedOnly demoUsers
      (verifyUpdate demoVerifier.id "verify" none 5 demoPending)) rfl
  exact ⟨rfl, h⟩

/-- C8: each successful transition writes exactly its prescribed fields:
the verify endpoint replaces the loan with `verifyUpdate`, which sets
`verifiedBy`, `verificationDate` and `status` (plus `rejectionReason` on
reject) and keeps every other field; the admin approve endpoint replaces
it with `approveUpdate`, which sets `approvedBy`, `approvalDate` and
`status` (plus `rejectionReason` on reject) and keeps every other field,
including the previously recorded `verifiedBy` and `verificationDate`;
every other store entry is untouched. -/
theorem C8_frame_conditions (users : List UserRec) (store : LoanStore)
    (actor : UserRec) (id : LoanId) (action : String) (reason : Option String)
    (now : Timestamp) (loan : Loan) (hfind : findById store id = some loan) :
    (wfVerifyBody action reason → loan.status = .pending →
      (verifyHandler users store actor id action reason now).2 =
        updateById store id (verifyUpdate actor.id action reason now loan) ∧
      findById (verifyHandler users store actor id action reason now).2 id =
        some (verifyUpdate actor.id action reason now loan) ∧
      (∀ j, j ≠ id →
        findById (verifyHandler users store actor id action reason now).2 j =
          findById store j)) ∧
    (wfApproveBody action reason → loan.status = .verified →
      (approveHandler users store actor id action reason now).2 =
        updateById store id (approveUpdate actor.id action reason now loan) ∧
      findById (approveHandler users store actor id action reason now).2 id =
        some (approveUpdate actor.id action reason now loan) ∧
      (∀ j, j ≠ id →
        findById (approveHandler users store actor id action reason now).2 j =
          findById store j)) ∧
    ((verifyUpdate actor.id action reason now loan).applicantName = loan.applicantName ∧
     (verifyUpdate actor.id action reason now loan).email = loan.email ∧
     (verifyUpdate actor.id action reason now loan).phoneNumber = loan.phoneNumber ∧
     (verifyUpdate actor.id action reason now loan).loanAmount = loan.loanAmount ∧
     (verifyUpdate actor.id action reason now loan).loanPurpose = loan.loanPurpose ∧
     (verifyUpdate actor.id action reason now loan).employmentStatus =
       loan.employmentStatus ∧
     (verifyUpdate actor.id action reason now loan).monthlyIncome =
       loan.monthlyIncome ∧
     (verifyUpdate actor.id action reason now loan).creditScore = loan.creditScore ∧
     (verifyUpdate actor.id action reason now loan).documents = loan.documents ∧
     (verifyUpdate actor.id action reason now loan).approvedBy = loan.approvedBy ∧
     (verifyUpdate actor.id action reason now loan).approvalDate = loan.approvalDate ∧
     (verifyUpdate actor.id action reason now loan).verifiedBy = some actor.id ∧
     (verifyUpdate actor.id action reason now loan).verificationDate = some now ∧
     (action = "verify" →
       (verifyUpdate actor.id action reason now loan).status = .verified ∧
       (verifyUpdate actor.id action reason now loan).rejectionReason =
         loan.rejectionReason) ∧
     (action ≠ "verify" →
       (verifyUpdate actor.id action reason now loan).status = .rejected ∧
       (verifyUpdate actor.id action reason now loan).rejectionReason = reason)) ∧
    ((approveUpdate actor.id action reason now loan).applicantName =
       loan.applicantName ∧
     (approveUpdate actor.id action reason now loan).email = loan.email ∧
     (approveUpdate actor.id action reason now loan).phoneNumber = loan.phoneNumber ∧
     (approveUpdate actor.id action reason now loan).loanAmount = loan.loanAmount ∧
     (approveUpdate actor.id action reason now loan).loanPurpose = loan.loanPurpose ∧
     (approveUpdate actor.id action reason now loan).employmentStatus =
       loan.employmentStatus ∧
     (approveUpdate actor.id action reason now loan).monthlyIncome =
       loan.monthlyIncome ∧
     (approveUpdate actor.id action reason now loan).creditScore = loan.creditScore ∧
     (approveUpdate actor.id action reason now loan).documents = loan.documents ∧
     (approveUpdate actor.id action reason now loan).verifiedBy = loan.verifiedBy ∧
     (approveUpdate actor.id action reason now loan).verificationDate =
       loan.verificationDate ∧
     (approveUpdate actor.id action reason now loan).approvedBy = some actor.id ∧
     (approveUpdate actor.id action reason now loan).approvalDate = some now ∧
     (action = "approve" →
       (approveUpdate actor.id action reason now loan).status = .approved ∧
       (approveUpdate actor.id action reason now loan).rejectionReason =
         loan.rejectionReason) ∧
     (action ≠ "approve" →
       (approveUpdate actor.id action reason now loan).status = .rejected ∧
       (approveUpdate actor.id action reason now loan).rejectionReason = reason)) := by
  refine ⟨?_, ?_, ?_, ?_⟩
  · intro hact hst
    rw [verifyHandler_success_eq users store actor id action reason now loan
      hfind hact hst]
    exact ⟨rfl,
      findById_updateById_self store id _ loan hfind,
      fun j hj => findById_updateById_ne store id j _ hj⟩
  · intro hact hst
    rw [approveHandler_success_eq users store actor id action reason now loan
      hfind hact hst]
    exact ⟨rfl,
      findById_updateById_self store id _ loan hfind,
      fun j hj => findById_updateById_ne store id j _ hj⟩
  · by_cases hva : action = "verify" <;> simp [verifyUpdate, hva]
  · by_cases hva : action = "approve" <;> simp [approveUpdate, hva]

/-- Witness for C8 at a successful verification of the pending loan. -/
theorem C8_frame_conditions_witness :
    findById demoStore 1 = some demoPending ∧
    (verifyHandler demoUsers demoStore demoVerifier 1 "verify" none 5).2 =
      updateById demoStore 1 (verifyUpdate demoVerifier.id "verify" none 5 demoPending) ∧
    findById (verifyHandler demoUsers demoStore demoVerifier 1 "verify" none 5).2 1 =
      some (verifyUpdate demoVerifier.id "verify" none 5 demoPending) ∧
    findById (verifyHandler demoUsers demoStore demoVerifier 1 "verify" none 5).2 2 =
      findById demoStore 2 := by
  have h := (C8_frame_conditions demoUsers demoStore demoVerifier 1 "verify" none 5
    demoPending rfl).1 (Or.inl rfl) rfl
  exact ⟨rfl, h.1, h.2.1, h.2.2 2 (by decide)⟩

end CreditSea
